import Mathlib

/-!
Verification of the metrics/telemetry subsystem of the memo-tracking web
application (`src/app/app.js`, with an earlier revision of the same file in
`src/unnamed/part_000`).

The app uses the prom-client library for its metric instruments (Counter,
Gauge, Histogram).  prom-client itself is an external dependency, not part of
this repository, so the instrument semantics below are modelled from the
specification of the metrics subsystem; everything else (the periodic
refresher `updateMemoMetrics`, the request-timing middleware, the API route
handlers, and the startup sequence) is translated directly from `app.js`.

Numbers: JavaScript numeric values that matter here (gauge values, histogram
sums, durations) are modelled as rationals (ℚ); row counts are naturals.
-/

namespace MemoApp

/-- Errors surfaced by the modelled subsystem.  `negativeDelta` corresponds to
the spec's `NegativeDeltaError` (prom-client throws when a counter is
decremented); `observationFailure` stands for any exception raised inside a
prom-client recording call; `dataAccess` corresponds to the spec's
`DataAccessError` (a failed pool query / connection). -/
inductive MetricError where
  | negativeDelta
  | observationFailure
  deriving Repr, DecidableEq

/-- A database-access failure (connectivity or query error), the spec's
`DataAccessError`. -/
inductive DbError where
  | dataAccess
  deriving Repr, DecidableEq

/-! ### Counter (modelled from the spec)

Modelled from the spec: prom-client's `Counter` is not part of this
repository.  Spec section 4.2: "Counter: monotonically non-decreasing;
`increment(labelSet, delta=1)` fails with `NegativeDeltaError` if delta < 0."
A single series holds one numeric value; `inc` either updates it or throws,
leaving the stored value as it was.  We model one series: the thrown error is
returned alongside the (unchanged) state. -/

structure CounterState where
  value : ℚ
  deriving Repr, DecidableEq

/-- Modelled from the spec: `increment` on one counter series.  Returns the
new stored state together with the error thrown, if any; a thrown
`negativeDelta` leaves the stored state untouched. -/
def counterInc (c : CounterState) (delta : ℚ) : CounterState × Option MetricError :=
  if delta < 0 then (c, some MetricError.negativeDelta)
  else ({ value := c.value + delta }, none)

/-! ### Gauge

Modelled from the spec: prom-client's `Gauge` is not part of this repository.
Spec section 4.2: "Gauge: arbitrary real value; `set(labelSet, value)`
overwrites unconditionally."  We model the single unlabelled series
`active_memos_count` directly as its current value where needed. -/

/-! ### Histogram (modelled from the spec)

Modelled from the spec: prom-client's `Histogram` is not part of this
repository.  Spec section 4.2: fixed ascending bucket boundaries with an
implicit +infinity top bucket; `observe(labelSet, value)` increments the
count of every bucket whose boundary is ≥ value, increments the overall
count, and adds value to the running sum.  The +infinity bucket's cumulative
count always equals `count`, so it is not stored separately. -/

structure HistogramState where
  bounds : List ℚ
  bucketCounts : List ℕ
  sum : ℚ
  count : ℕ
  deriving Repr, DecidableEq

/-- Modelled from the spec: a fresh histogram series with the given bucket
boundaries, all bucket counts zero, zero sum and zero count. -/
def histogramEmpty (bounds : List ℚ) : HistogramState :=
  { bounds := bounds
    bucketCounts := bounds.map fun _ => 0
    sum := 0
    count := 0 }

/-- Modelled from the spec: `observe(value)` on one histogram series. -/
def histogramObserve (h : HistogramState) (v : ℚ) : HistogramState :=
  { bounds := h.bounds
    bucketCounts :=
      (h.bounds.zip h.bucketCounts).map fun p => if v ≤ p.1 then p.2 + 1 else p.2
    sum := h.sum + v
    count := h.count + 1 }

/-- Observe a list of values in order. -/
def histogramObserveAll (h : HistogramState) (vs : List ℚ) : HistogramState :=
  vs.foldl histogramObserve h

/-! ### The database and the active-memo count query

`updateMemoMetrics` (app.js lines 78-85) runs
`SELECT COUNT(*) as count FROM memos WHERE status = "sent"` and writes the
result into the `active_memos_count` gauge.  We model the `memos` table as a
list of rows, of which only the `status` column matters here. -/

structure Memo where
  status : String
  deriving Repr, DecidableEq

/-- The scalar computed by the refresher's COUNT query: the number of memos
whose `status` column equals the designated active status, which in
`app.js` line 80 is the string literal `"sent"`. -/
def countActiveMemos (memos : List Memo) : ℕ :=
  (memos.filter fun m => m.status = "sent").length

/-- Outcome of `pool.execute` for the COUNT query: the count on success,
or a `DbError` when connectivity or the query fails. -/
def execCountQuery (connected : Bool) (memos : List Memo) : Except DbError ℕ :=
  if connected then Except.ok (countActiveMemos memos) else Except.error DbError.dataAccess

/-! ### The periodic refresher, per-run semantics (app.js lines 78-85)

One complete run of `updateMemoMetrics`, given the outcome of its query:
on success it sets the gauge to the returned count; on failure the `catch`
block logs the error (`console.error`) and does nothing else — the gauge is
not written. -/

structure MetricsState where
  /-- Current value of the `active_memos_count` gauge (prom-client gauges
  start at 0). -/
  activeMemos : ℚ
  /-- Number of `console.error` log lines emitted by the refresher. -/
  errorsLogged : ℕ
  /-- Number of refresher runs that have completed. -/
  runsCompleted : ℕ
  deriving Repr, DecidableEq

/-- One completed run of `updateMemoMetrics` (app.js lines 78-85), as a
function of its query outcome. -/
def updateMemoMetrics (outcome : Except DbError ℕ) (s : MetricsState) : MetricsState :=
  match outcome with
  | Except.ok n =>
      { s with activeMemos := (n : ℚ), runsCompleted := s.runsCompleted + 1 }
  | Except.error _ =>
      { s with errorsLogged := s.errorsLogged + 1, runsCompleted := s.runsCompleted + 1 }

/-- A sequence of refresher runs, one per scheduled tick, each with its own
query outcome.  `setInterval` (app.js line 356) keeps firing regardless of
what earlier runs did, so every element of the list is processed. -/
def runTicks (outcomes : List (Except DbError ℕ)) (s : MetricsState) : MetricsState :=
  outcomes.foldl (fun st o => updateMemoMetrics o st) s

/-! ### The timer and in-flight refreshes (app.js lines 78-85 and 356)

`updateMemoMetrics` is an `async` function: it suspends at
`await pool.execute(...)`, so a refresh is "in flight" from the moment it is
called until that query settles.  The `setInterval` callback at line 356 is
`updateMemoMetrics` itself, invoked directly — there is no guard variable,
no check of any in-flight state, and the returned promise is not awaited.
We model the fine-grained behaviour with two events: a timer `tick`
(which, per the code, unconditionally starts a new refresh) and the
`settle` of one in-flight refresh's query. -/

structure AsyncRefresherState where
  /-- Refreshes whose `pool.execute` has not yet settled. -/
  inFlight : ℕ
  /-- Total refreshes started so far. -/
  started : ℕ
  /-- Current value of the `active_memos_count` gauge. -/
  gauge : ℚ
  deriving Repr, DecidableEq

inductive RefreshEvent where
  /-- The 30-second `setInterval` callback fires (app.js line 356). -/
  | tick
  /-- One in-flight refresh's query settles with the given outcome, and the
  rest of the `updateMemoMetrics` body runs. -/
  | settle (outcome : Except DbError ℕ)
  deriving Repr

/-- Fine-grained step of the timer-and-refresher system, translated from
app.js: on `tick` the interval callback calls `updateMemoMetrics()` — with
no condition attached — starting a new in-flight refresh; on `settle` one
in-flight refresh finishes, writing the gauge on success and only logging on
failure. -/
def refreshStep (s : AsyncRefresherState) : RefreshEvent → AsyncRefresherState
  | RefreshEvent.tick =>
      { s with inFlight := s.inFlight + 1, started := s.started + 1 }
  | RefreshEvent.settle outcome =>
      if s.inFlight = 0 then s
      else
        match outcome with
        | Except.ok n => { s with inFlight := s.inFlight - 1, gauge := (n : ℚ) }
        | Except.error _ => { s with inFlight := s.inFlight - 1 }

/-- Run a sequence of events from a state. -/
def runEvents (s : AsyncRefresherState) (es : List RefreshEvent) : AsyncRefresherState :=
  es.foldl refreshStep s

/-! ### Startup sequence (app.js lines 57-75 and 346-360)

`initializeDatabase` is an `async` function whose entire body sits inside
one `try`: create the pool, get a connection, `ping`, release, then call
`updateMemoMetrics()` (not awaited).  The `catch` block logs the error and
schedules a retry with `setTimeout(initializeDatabase, 5000)`, then the
function returns normally — so the promise it returns fulfills on both
paths.  A JavaScript async function's promise rejects exactly when an
exception escapes the body; we model that with `Except`: `Except.error`
means the promise rejects. -/

/-- Effects of one `initializeDatabase` attempt that are visible to the rest
of the startup logic. -/
structure InitEffects where
  /-- The connection test succeeded. -/
  connected : Bool
  /-- `updateMemoMetrics()` was invoked from line 69 (the immediate
  startup refresh). -/
  immediateRefresh : Bool
  /-- A retry was scheduled via `setTimeout(initializeDatabase, 5000)`. -/
  retryScheduled : Bool
  deriving Repr, DecidableEq

/-- The `try` body of `initializeDatabase` (app.js lines 58-70): pool
creation plus connection test, abstracted into one fallible step
`poolAndPing`, followed by the immediate `updateMemoMetrics()` call. -/
def initializeDatabaseBody (poolAndPing : Except DbError Unit) : Except DbError InitEffects :=
  match poolAndPing with
  | Except.ok _ =>
      Except.ok { connected := true, immediateRefresh := true, retryScheduled := false }
  | Except.error e => Except.error e

/-- `initializeDatabase` itself (app.js lines 57-75): the body wrapped in
`try`/`catch`, where the `catch` handler (lines 71-74) logs and schedules a
retry, raising nothing of its own. -/
def initializeDatabase (poolAndPing : Except DbError Unit) : Except DbError InitEffects :=
  match initializeDatabaseBody poolAndPing with
  | Except.ok eff => Except.ok eff
  | Except.error _ =>
      Except.ok { connected := false, immediateRefresh := false, retryScheduled := true }

/-- The interval passed to `setInterval` at app.js line 356, in
milliseconds. -/
def metricsIntervalMs : ℕ := 30000

/-- Observable outcome of the startup code at app.js lines 346-360. -/
structure StartupResult where
  /-- `app.listen` was called (the server accepts requests). -/
  listening : Bool
  /-- `setInterval(updateMemoMetrics, 30000)` was installed. -/
  intervalStarted : Bool
  /-- The immediate startup refresh ran (line 69). -/
  immediateRefresh : Bool
  /-- The `.catch` branch ran and called `process.exit(1)` (line 359). -/
  exitCalled : Bool
  /-- A 5-second retry of `initializeDatabase` was scheduled. -/
  retryScheduled : Bool
  deriving Repr, DecidableEq

/-- The startup code `initializeDatabase().then(...).catch(...)` at app.js
lines 346-360: the `.then` callback starts the HTTP listener and installs
the 30-second interval; the `.catch` callback calls `process.exit(1)`. -/
def startApplication (poolAndPing : Except DbError Unit) : StartupResult :=
  match initializeDatabase poolAndPing with
  | Except.ok eff =>
      { listening := true
        intervalStarted := true
        immediateRefresh := eff.immediateRefresh
        exitCalled := false
        retryScheduled := eff.retryScheduled }
  | Except.error _ =>
      { listening := false
        intervalStarted := false
        immediateRefresh := false
        exitCalled := true
        retryScheduled := false }

/-! ### Request-timing middleware (app.js lines 88-101)

The middleware records `start = Date.now()` before calling `next()`, and in
the response's `finish` listener computes
`duration = (Date.now() - start) / 1000` and calls
`httpRequestDuration.labels(req.method, req.route?.path || req.path,
res.statusCode).observe(duration)`.  The route label expression uses
JavaScript `||`, which falls through to `req.path` when `req.route?.path` is
`undefined` (no matched route) or any other falsy value (the empty
string). -/

structure RequestInfo where
  method : String
  /-- `req.path`: the raw request path. -/
  rawPath : String
  /-- `req.route?.path`: the matched route pattern, when the router
  resolved one. -/
  routePath : Option String
  /-- `res.statusCode` at the time the response finishes. -/
  statusCode : ℕ
  deriving Repr, DecidableEq

/-- JavaScript `a || b` on an optional string `a` (with the empty string
falsy), translated from `req.route?.path || req.path`. -/
def jsOrElse (a : Option String) (b : String) : String :=
  match a with
  | some s => if s = "" then b else s
  | none => b

/-- The label set and value passed to `.labels(...).observe(...)` in the
`finish` listener, given the start and finish clock readings in
milliseconds (`Date.now()` values). -/
structure ObservedSample where
  method : String
  route : String
  statusCode : ℕ
  value : ℚ
  deriving Repr, DecidableEq

/-- What the `finish` listener (app.js lines 91-98) computes: the duration
in seconds and the three label values. -/
def requestSample (req : RequestInfo) (startMs finishMs : ℕ) : ObservedSample :=
  { method := req.method
    route := jsOrElse req.routePath req.rawPath
    statusCode := req.statusCode
    value := ((finishMs : ℚ) - (startMs : ℚ)) / 1000 }

/-- The `finish` listener itself: it computes the sample and immediately
calls the prom-client recording operation
(`httpRequestDuration.labels(...).observe(...)`), with no `try`/`catch` of
its own — the listener's outcome is exactly the recording call's outcome.
The recording operation is a parameter because prom-client is external to
this repository. -/
def finishListenerRun (req : RequestInfo) (startMs finishMs : ℕ)
    (recordSample : ObservedSample → Except MetricError Unit) : Except MetricError Unit :=
  recordSample (requestSample req startMs finishMs)

/-- The middleware wrapping one request: `start` is captured from the clock
before `next()` hands off to the rest of the pipeline, the handler takes
`handlerMs` milliseconds, and the `finish` listener fires when the response
is finalized. -/
def runTimedRequest (req : RequestInfo) (clockStart handlerMs : ℕ)
    (recordSample : ObservedSample → Except MetricError Unit) :
    ObservedSample × Except MetricError Unit :=
  let finishMs := clockStart + handlerMs
  (requestSample req clockStart finishMs, finishListenerRun req clockStart finishMs recordSample)

/-! ### The /api route handlers (app.js lines 209-343)

Each handler's body is one `try`/`catch`.  The first statement inside each
`try` is `dbConnectionsTotal.inc()` (an argumentless increment that cannot
fail), followed by one or more awaited pool queries; the `catch` sends a 500
response.  We record, per invocation: the response status, how many times
`dbConnectionsTotal` was incremented, the `(operation, status)` label pairs
incremented on `memoOperationsTotal`, and whether `updateMemoMetrics()` was
invoked. -/

structure HandlerResult where
  status : ℕ
  /-- Number of `dbConnectionsTotal.inc()` calls made during the
  invocation. -/
  dbConnInc : ℕ
  /-- `(operation, status)` label pairs incremented on
  `memoOperationsTotal`, in order. -/
  memoOps : List (String × String)
  /-- Whether the handler invoked `updateMemoMetrics()`. -/
  calledUpdateMemoMetrics : Bool
  deriving Repr, DecidableEq

/-- GET /api/memo-stats (app.js lines 209-244): three sequential queries
(today count, total count, weekly trend); any failure jumps to the
`catch`. -/
def memoStatsHandler (todayQ totalQ : Except DbError ℕ)
    (trendQ : Except DbError (List (String × ℕ))) : HandlerResult :=
  match (do
      let _ ← todayQ
      let _ ← totalQ
      let _ ← trendQ
      pure () : Except DbError Unit) with
  | Except.ok _ =>
      { status := 200, dbConnInc := 1
        memoOps := [("get_stats", "attempt"), ("get_stats", "success")]
        calledUpdateMemoMetrics := false }
  | Except.error _ =>
      { status := 500, dbConnInc := 1
        memoOps := [("get_stats", "attempt"), ("get_stats", "error")]
        calledUpdateMemoMetrics := false }

/-- GET /api/memos (app.js lines 247-267). -/
def getMemosHandler (q : Except DbError Unit) : HandlerResult :=
  match q with
  | Except.ok _ =>
      { status := 200, dbConnInc := 1
        memoOps := [("get_all", "attempt"), ("get_all", "success")]
        calledUpdateMemoMetrics := false }
  | Except.error _ =>
      { status := 500, dbConnInc := 1
        memoOps := [("get_all", "attempt"), ("get_all", "error")]
        calledUpdateMemoMetrics := false }

/-- GET /api/users/:userId/assignments (app.js lines 270-293). -/
def getAssignmentsHandler (q : Except DbError Unit) : HandlerResult :=
  match q with
  | Except.ok _ =>
      { status := 200, dbConnInc := 1
        memoOps := [("get_assignments", "attempt"), ("get_assignments", "success")]
        calledUpdateMemoMetrics := false }
  | Except.error _ =>
      { status := 500, dbConnInc := 1
        memoOps := [("get_assignments", "attempt"), ("get_assignments", "error")]
        calledUpdateMemoMetrics := false }

/-- PUT /api/assignments/:assignmentId/accept (app.js lines 296-323).  The
UPDATE query yields `affectedRows`; when it is positive the handler responds
200 and then calls `updateMemoMetrics()` (line 313); when it is zero the
handler responds 404; a query failure responds 500. -/
def acceptAssignmentHandler (updateQ : Except DbError ℕ) : HandlerResult :=
  match updateQ with
  | Except.ok affectedRows =>
      if affectedRows > 0 then
        { status := 200, dbConnInc := 1
          memoOps := [("accept_memo", "attempt"), ("accept_memo", "success")]
          calledUpdateMemoMetrics := true }
      else
        { status := 404, dbConnInc := 1
          memoOps := [("accept_memo", "attempt"), ("accept_memo", "not_found")]
          calledUpdateMemoMetrics := false }
  | Except.error _ =>
      { status := 500, dbConnInc := 1
        memoOps := [("accept_memo", "attempt"), ("accept_memo", "error")]
        calledUpdateMemoMetrics := false }

/-- GET /api/users/:userId/notifications (app.js lines 326-343): increments
`dbConnectionsTotal` but touches no `memoOperationsTotal` labels. -/
def getNotificationsHandler (q : Except DbError Unit) : HandlerResult :=
  match q with
  | Except.ok _ =>
      { status := 200, dbConnInc := 1, memoOps := [], calledUpdateMemoMetrics := false }
  | Except.error _ =>
      { status := 500, dbConnInc := 1, memoOps := [], calledUpdateMemoMetrics := false }

/-- A concrete request used in closed statements below. -/
def sampleRequest : RequestInfo :=
  { method := "GET", rawPath := "/api/memos", routePath := some "/api/memos", statusCode := 200 }

/-! ## Theorems -/

/-- C1 counterexample: the claim says a tick that fires while a refresh is
in flight performs no refresh.  In the code the `setInterval` callback is
`updateMemoMetrics` itself, with no guard: from a state with one refresh in
flight (its query not yet settled), a tick still starts a new refresh — the
started-count changes, so the claim is false at this concrete state. -/
theorem tick_not_skipped_counterexample :
    ¬ (0 < (AsyncRefresherState.mk 1 1 0).inFlight →
        (refreshStep (AsyncRefresherState.mk 1 1 0) RefreshEvent.tick).started =
          (AsyncRefresherState.mk 1 1 0).started) := by
  decide

/-- C1 (amended): there is no single-flight guard.  Every tick
unconditionally starts a new refresh, even while a previous refresh's query
is still in progress, so two refreshes can be in flight simultaneously:
after two ticks with no query settling in between, two refreshes overlap. -/
theorem tick_always_starts_refresh (s : AsyncRefresherState) :
    (refreshStep s RefreshEvent.tick).started = s.started + 1 ∧
    (refreshStep s RefreshEvent.tick).inFlight = s.inFlight + 1 ∧
    (runEvents (AsyncRefresherState.mk 0 0 0)
      [RefreshEvent.tick, RefreshEvent.tick]).inFlight = 2 :=
  ⟨rfl, rfl, rfl⟩

/-- C2 counterexample: the claim says a failure raised while recording the
observation is swallowed.  The `finish` listener (app.js lines 91-98) has no
`try`/`catch`: with a recording operation that fails, the listener's outcome
is that very error, not a swallowed success. -/
theorem finish_listener_error_counterexample :
    finishListenerRun sampleRequest 1000 1250
        (fun _ => Except.error MetricError.observationFailure) ≠
      Except.ok () := by
  simp [finishListenerRun]

/-- C2 (amended): the `finish` listener performs no error handling of its
own.  Whenever the prom-client recording call
(`httpRequestDuration.labels(...).observe(...)`) fails, that failure is the
listener's outcome — it propagates out of the listener instead of being
caught and logged there. -/
theorem finish_listener_propagates_error (req : RequestInfo) (startMs finishMs : ℕ)
    (recordSample : ObservedSample → Except MetricError Unit) (e : MetricError)
    (h : recordSample (requestSample req startMs finishMs) = Except.error e) :
    finishListenerRun req startMs finishMs recordSample = Except.error e := by
  simpa [finishListenerRun] using h

/-- C2 witness: a concrete failing recording operation, whose error the
listener returns unchanged. -/
theorem finish_listener_propagates_error_witness :
    finishListenerRun sampleRequest 1000 1250
        (fun _ => Except.error MetricError.observationFailure) =
      Except.error MetricError.observationFailure :=
  finish_listener_propagates_error sampleRequest 1000 1250
    (fun _ => Except.error MetricError.observationFailure) MetricError.observationFailure rfl

/-- Every run of `updateMemoMetrics`, successful or not, completes exactly
one run: a sequence of ticks completes as many runs as there are ticks. -/
theorem runTicks_runs_all (outcomes : List (Except DbError ℕ)) (s : MetricsState) :
    (runTicks outcomes s).runsCompleted = s.runsCompleted + outcomes.length := by
  induction outcomes generalizing s with
  | nil => rfl
  | cons o rest ih =>
      have h1 : (updateMemoMetrics o s).runsCompleted = s.runsCompleted + 1 := by
        cases o <;> rfl
      have h2 : runTicks (o :: rest) s = runTicks rest (updateMemoMetrics o s) := rfl
      rw [h2, ih, h1, List.length_cons]
      omega

/-- C3: on a tick whose COUNT query fails, the `catch` in
`updateMemoMetrics` logs the error and does nothing else — the gauge keeps
its last value; every scheduled tick still completes a run (the timer is
unaffected by failures); and a failing tick followed by a successful one
leaves the gauge at the new count. -/
theorem failed_tick_logged_and_swallowed (s : MetricsState) (n : ℕ)
    (outcomes : List (Except DbError ℕ)) :
    (updateMemoMetrics (Except.error DbError.dataAccess) s).activeMemos = s.activeMemos ∧
    (updateMemoMetrics (Except.error DbError.dataAccess) s).errorsLogged =
      s.errorsLogged + 1 ∧
    (runTicks [Except.error DbError.dataAccess, Except.ok n] s).activeMemos = (n : ℚ) ∧
    (runTicks outcomes s).runsCompleted = s.runsCompleted + outcomes.length :=
  ⟨rfl, rfl, rfl, runTicks_runs_all outcomes s⟩

/-- C4: when the startup connection test succeeds, the refresher runs once
immediately (from `initializeDatabase`, line 69) and the 30000 ms interval
is installed; each successful run sets the `active_memos_count` gauge to
exactly the count of memos whose status is the designated active one. -/
theorem startup_refresh_and_interval (memos : List Memo) (s : MetricsState) :
    (startApplication (Except.ok ())).immediateRefresh = true ∧
    (startApplication (Except.ok ())).intervalStarted = true ∧
    metricsIntervalMs = 30000 ∧
    (updateMemoMetrics (execCountQuery true memos) s).activeMemos =
      (countActiveMemos memos : ℚ) :=
  ⟨rfl, rfl, rfl, rfl⟩

/-- C5: the middleware captures the start clock before dispatch, and after
the response finishes it observes the elapsed wall-clock time in seconds —
`(finish - start) / 1000` for `Date.now()` readings in milliseconds — with
labels method and status code from the request, and a route label that is
the matched route pattern when one was resolved (route patterns are
nonempty) and the raw request path otherwise. -/
theorem timing_sample_contents (req : RequestInfo) (clockStart handlerMs : ℕ)
    (recordSample : ObservedSample → Except MetricError Unit) :
    (runTimedRequest req clockStart handlerMs recordSample).1.value =
      (handlerMs : ℚ) / 1000 ∧
    (runTimedRequest req clockStart handlerMs recordSample).1.method = req.method ∧
    (runTimedRequest req clockStart handlerMs recordSample).1.statusCode = req.statusCode ∧
    (req.routePath = none →
      (runTimedRequest req clockStart handlerMs recordSample).1.route = req.rawPath) ∧
    (∀ p, req.routePath = some p → p ≠ "" →
      (runTimedRequest req clockStart handlerMs recordSample).1.route = p) := by
  refine ⟨?_, rfl, rfl, ?_, ?_⟩
  · show (((clockStart + handlerMs : ℕ) : ℚ) - (clockStart : ℚ)) / 1000 =
      (handlerMs : ℚ) / 1000
    push_cast
    ring
  · intro hnone
    simp [runTimedRequest, requestSample, jsOrElse, hnone]
  · intro p hp hne
    simp [runTimedRequest, requestSample, jsOrElse, hp, hne]

/-- C5 witness: a concrete request matched to the route `/api/memos`, a
start clock of 1000 ms and a 250 ms handler give an observed value of a
quarter second with route label `/api/memos`. -/
theorem timing_sample_contents_witness :
    (runTimedRequest sampleRequest 1000 250 (fun _ => Except.ok ())).1.value =
      (250 : ℚ) / 1000 ∧
    (runTimedRequest sampleRequest 1000 250 (fun _ => Except.ok ())).1.route =
      "/api/memos" :=
  ⟨(timing_sample_contents sampleRequest 1000 250 (fun _ => Except.ok ())).1,
    (timing_sample_contents sampleRequest 1000 250
      (fun _ => Except.ok ())).2.2.2.2 "/api/memos" rfl (by decide)⟩

/-- Pointwise effect of one observation on the per-bucket cumulative counts:
the bucket at index `i` grows by one exactly when its boundary is at least
the observed value. -/
theorem observe_bucket_getD (v : ℚ) :
    ∀ (bounds : List ℚ) (counts : List ℕ) (i : ℕ),
      counts.length = bounds.length → i < bounds.length →
      ((bounds.zip counts).map fun p => if v ≤ p.1 then p.2 + 1 else p.2).getD i 0 =
        counts.getD i 0 + (if v ≤ bounds.getD i 0 then 1 else 0) := by
  intro bounds
  induction bounds with
  | nil => intro counts i _ hi; simp at hi
  | cons b bs ih =>
      intro counts i hlen hi
      cases counts with
      | nil => simp at hlen
      | cons c cs =>
          cases i with
          | zero => by_cases hv : v ≤ b <;> simp [hv]
          | succ j =>
              simp only [List.zip_cons_cons, List.map_cons, List.getD_cons_succ]
              exact ih cs j (by simpa using hlen) (by simpa using hi)

/-- C6: `observe` adds one to the overall count, adds the value to the
running sum, and adds one to the cumulative count of every bucket whose
boundary is ≥ the value (all others unchanged); on boundaries [1, 5, 10],
observing 0.5, 3, 7, 20 gives cumulative bucket counts 1, 2, 3 (and 4 in
the implicit +infinity bucket, which equals the overall count), with sum
30.5 and count 4. -/
theorem histogram_observe_spec (h : HistogramState) (v : ℚ) (i : ℕ)
    (hlen : h.bucketCounts.length = h.bounds.length) (hi : i < h.bounds.length) :
    (histogramObserve h v).count = h.count + 1 ∧
    (histogramObserve h v).sum = h.sum + v ∧
    (histogramObserve h v).bucketCounts.getD i 0 =
      h.bucketCounts.getD i 0 + (if v ≤ h.bounds.getD i 0 then 1 else 0) ∧
    (histogramObserveAll (histogramEmpty [1, 5, 10])
        [1 / 2, 3, 7, 20]).bucketCounts = [1, 2, 3] ∧
    (histogramObserveAll (histogramEmpty [1, 5, 10]) [1 / 2, 3, 7, 20]).count = 4 ∧
    (histogramObserveAll (histogramEmpty [1, 5, 10]) [1 / 2, 3, 7, 20]).sum = 61 / 2 := by
  refine ⟨rfl, rfl, observe_bucket_getD v h.bounds h.bucketCounts i hlen hi, ?_, ?_, ?_⟩
  · norm_num [histogramObserveAll, histogramObserve, histogramEmpty]
  · norm_num [histogramObserveAll, histogramObserve, histogramEmpty]
  · norm_num [histogramObserveAll, histogramObserve, histogramEmpty]

/-- C6 witness: observing 3 on a fresh histogram with boundaries [1, 5, 10]
leaves the first bucket (index 0, boundary 1) at zero. -/
theorem histogram_observe_spec_witness :
    (histogramObserve (histogramEmpty [1, 5, 10]) 3).count = 1 ∧
    (histogramObserve (histogramEmpty [1, 5, 10]) 3).bucketCounts.getD 0 0 = 0 := by
  have h := histogram_observe_spec (histogramEmpty [1, 5, 10]) 3 0 (by decide) (by decide)
  exact ⟨h.1, by rw [h.2.2.1]; decide⟩

/-- C7: a counter series never decreases: an increment with a negative
delta throws `NegativeDeltaError` and leaves the stored value exactly as it
was, and no increment whatsoever lowers the stored value. -/
theorem counter_negative_delta_rejected (c : CounterState) (d : ℚ) (hd : d < 0) :
    (counterInc c d).1 = c ∧
    (counterInc c d).2 = some MetricError.negativeDelta ∧
    ∀ d2 : ℚ, c.value ≤ (counterInc c d2).1.value := by
  refine ⟨?_, ?_, ?_⟩
  · simp [counterInc, hd]
  · simp [counterInc, hd]
  · intro d2
    by_cases h2 : d2 < 0
    · simp [counterInc, h2]
    · simp only [counterInc, h2, if_false]
      linarith [not_lt.mp h2]

/-- C7 witness: decrementing a counter holding 5 by 1 throws and leaves the
value at 5. -/
theorem counter_negative_delta_rejected_witness :
    (counterInc (CounterState.mk 5) (-1)).1 = CounterState.mk 5 ∧
    (counterInc (CounterState.mk 5) (-1)).2 = some MetricError.negativeDelta :=
  ⟨(counter_negative_delta_rejected (CounterState.mk 5) (-1) (by norm_num)).1,
    (counter_negative_delta_rejected (CounterState.mk 5) (-1) (by norm_num)).2.1⟩

/-- C8: `initializeDatabase` fulfills on every path — its `catch` answers
any failure by scheduling a 5-second retry and returning normally — so the
`.then` callback always runs: the server listens and the 30-second interval
starts even when the initial connection test fails, and the `.catch` branch
that would call `process.exit(1)` never runs. -/
theorem init_never_rejects (poolAndPing : Except DbError Unit) :
    (∃ eff, initializeDatabase poolAndPing = Except.ok eff) ∧
    (startApplication poolAndPing).listening = true ∧
    (startApplication poolAndPing).intervalStarted = true ∧
    (startApplication poolAndPing).exitCalled = false ∧
    (startApplication (Except.error DbError.dataAccess)).retryScheduled = true := by
  cases poolAndPing with
  | ok u => exact ⟨⟨_, rfl⟩, rfl, rfl, rfl, rfl⟩
  | error e => exact ⟨⟨_, rfl⟩, rfl, rfl, rfl, rfl⟩

/-- C9: whenever the accept-assignment UPDATE affects at least one row, the
handler responds 200 and additionally invokes `updateMemoMetrics()`
(app.js line 313), refreshing the gauge outside the timer schedule; on the
not-found and error paths it does not. -/
theorem accept_success_refreshes_metrics (n : ℕ) (hn : 0 < n) :
    (acceptAssignmentHandler (Except.ok n)).calledUpdateMemoMetrics = true ∧
    (acceptAssignmentHandler (Except.ok n)).status = 200 ∧
    (acceptAssignmentHandler (Except.ok 0)).calledUpdateMemoMetrics = false ∧
    (∀ e : DbError,
      (acceptAssignmentHandler (Except.error e)).calledUpdateMemoMetrics = false) := by
  refine ⟨?_, ?_, rfl, fun e => rfl⟩ <;> simp [acceptAssignmentHandler, hn]

/-- C9 witness: an UPDATE affecting one row triggers the immediate
refresh. -/
theorem accept_success_refreshes_metrics_witness :
    (acceptAssignmentHandler (Except.ok 1)).calledUpdateMemoMetrics = true ∧
    (acceptAssignmentHandler (Except.ok 1)).status = 200 :=
  ⟨(accept_success_refreshes_metrics 1 (by decide)).1,
    (accept_success_refreshes_metrics 1 (by decide)).2.1⟩

/-- C10: every invocation of each of the five /api handlers increments
`dbConnectionsTotal` exactly once, whatever the outcome of its queries:
the counter tallies handler invocations, not pool connections. -/
theorem db_connections_counts_invocations
    (todayQ totalQ : Except DbError ℕ) (trendQ : Except DbError (List (String × ℕ)))
    (memosQ assignmentsQ notificationsQ : Except DbError Unit)
    (updateQ : Except DbError ℕ) :
    (memoStatsHandler todayQ totalQ trendQ).dbConnInc = 1 ∧
    (getMemosHandler memosQ).dbConnInc = 1 ∧
    (getAssignmentsHandler assignmentsQ).dbConnInc = 1 ∧
    (acceptAssignmentHandler updateQ).dbConnInc = 1 ∧
    (getNotificationsHandler notificationsQ).dbConnInc = 1 := by
  refine ⟨?_, ?_, ?_, ?_, ?_⟩
  · cases todayQ <;> cases totalQ <;> cases trendQ <;> rfl
  · cases memosQ <;> rfl
  · cases assignmentsQ <;> rfl
  · cases updateQ with
    | ok n =>
        by_cases hn : n > 0 <;> simp [acceptAssignmentHandler, hn]
    | error e => rfl
  · cases notificationsQ <;> rfl

end MemoApp
